import Mathlib

/-
  Verification of the Turkish Market Newsletter pipeline (src/app.py):
  a shallow embedding of its scoring, selection, sector classification,
  heat aggregation, narrative and feed-window functions, with theorems
  checking the documented properties.

  Conventions of the embedding:
  * timestamps are whole seconds (Int); the wall clock is passed in
    explicitly as `now`;
  * `datetime.now() - article["published"]` is a Python timedelta; the
    code reads its `.seconds` component, which Python normalises to the
    total difference modulo 86400 (`0 <= seconds < 86400`); the
    embedding mirrors this with `Int.emod`;
  * Python strings are Lean `String`s; `str.lower()` is modelled on the
    alphabet the app's keywords and inputs use (ASCII plus the Turkish
    capitals mapped to their lowercase forms); Python `a in b` on
    strings is substring occurrence, `occursIn`;
  * a news dict is `Article`; its `"score"` key, absent until
    `select_top_news` attaches it, is the field `score : Option ℚ`;
  * the in-place `articles.sort(key=..., reverse=True)` is made
    explicit: `select_top_full` is the caller's list as it stands after
    the call (scored and stably sorted descending), `select_top_news`
    the returned slice `take n`.
-/

/-- Python `str.lower()` on one character, restricted to the alphabet the
app uses: ASCII capitals and the Turkish capitals Ç, Ğ, Ö, Ş, Ü. -/
def lowerChar (c : Char) : Char :=
  if 'A' ≤ c ∧ c ≤ 'Z' then Char.ofNat (c.toNat + 32)
  else if c = 'Ç' then 'ç'
  else if c = 'Ğ' then 'ğ'
  else if c = 'Ö' then 'ö'
  else if c = 'Ş' then 'ş'
  else if c = 'Ü' then 'ü'
  else c

/-- Python `s.lower()`, as a list of characters. -/
def lowerStr (s : String) : List Char := s.toList.map lowerChar

/-- `pat` occurs at the very front of `text`. -/
def isLeadOf : List Char → List Char → Bool
  | [], _ => true
  | _ :: _, [] => false
  | p :: ps, t :: ts => p == t && isLeadOf ps ts

/-- Python `pat in text` on strings: `pat` occurs contiguously somewhere
in `text` (the empty pattern always occurs). -/
def occursIn : List Char → List Char → Bool
  | pat, [] => pat.isEmpty
  | pat, c :: rest => isLeadOf pat (c :: rest) || occursIn pat rest

/-- `KEYWORDS["high"]` of app.py. -/
def KEYWORDS_high : List String :=
  ["TCMB", "faiz", "enflasyon", "Fed", "ECB", "bilanço", "KAP"]

/-- `KEYWORDS["medium"]` of app.py. -/
def KEYWORDS_medium : List String :=
  ["BIST", "endeks", "döviz", "CDS", "rezerv", "petrol"]

/-- A news dict: `title`, `summary`, `source`, `published`, and the
`"score"` key that only exists once `select_top_news` attaches it. -/
structure Article where
  title : String
  summary : String
  source : String
  published : Int
  score : Option ℚ
deriving DecidableEq, Repr

/-- `(datetime.now() - article["published"]).seconds / 3600` of
`score_news`: the elapsed time is taken modulo 86400 seconds because the
code reads the timedelta's `.seconds` component. -/
def hours_old (now published : Int) : ℚ :=
  (((now - published).emod 86400 : Int) : ℚ) / 3600

/-- `max(0, 3 - hours_old)`, the recency contribution of `score_news`. -/
def recencyBonus (now published : Int) : ℚ :=
  max 0 (3 - hours_old now published)

/-- The keyword points of `score_news`: +3 per high keyword occurring
(case-insensitively) in the lowered title+summary text, +1 per medium
keyword. -/
def keywordPoints (text : List Char) : Nat :=
  3 * (KEYWORDS_high.filter (fun kw => occursIn (lowerStr kw) text)).length
    + (KEYWORDS_medium.filter (fun kw => occursIn (lowerStr kw) text)).length

/-- `if article["source"] in ["ReutersTR", "BloombergHT"]: score += 2`. -/
def sourceBonus (source : String) : Nat :=
  if source ∈ (["ReutersTR", "BloombergHT"] : List String) then 2 else 0

/-- `score_news(article)` of app.py, with the wall clock `now` passed in
explicitly: keyword points on the lowered `title + " " + summary`, the
trusted-source bonus, and the recency bonus. -/
def score_news (now : Int) (article : Article) : ℚ :=
  ((keywordPoints (lowerStr (article.title ++ " " ++ article.summary))
      + sourceBonus article.source : Nat) : ℚ)
    + recencyBonus now article.published

/-- The record of the spec's scenario: title "TCMB faiz kararı", empty
summary, source "Bigpara", published at instant 0 (taken as "now"). -/
def articleTCMB : Article :=
  { title := "TCMB faiz kararı", summary := "", source := "Bigpara",
    published := 0, score := none }

theorem recencyBonus_now_eq_three : recencyBonus 0 0 = 3 := by
  have h : ((0 : Int) - 0).emod 86400 = 0 := by decide
  rw [recencyBonus, hours_old, h]
  norm_num

/-- C1 (counterexample): at the spec's scenario record the score is not 6:
it is strictly above 6, because the title hits two high keywords. -/
theorem score_scenario_ne_six : 6 < score_news 0 articleTCMB := by
  have hk : keywordPoints (lowerStr (articleTCMB.title ++ " " ++ articleTCMB.summary)) = 6 := by
    decide
  have hs : sourceBonus articleTCMB.source = 0 := by decide
  rw [score_news, hk, hs]
  rw [show articleTCMB.published = 0 from rfl, recencyBonus_now_eq_three]
  norm_num

/-- The monetary-policy sentence of `why_this_matters`. -/
def sentMonetary : String :=
  "Para politikası adımları, özellikle bankacılık sektörü olmak üzere tüm piyasa değerlemelerini etkiler."

/-- The earnings sentence of `why_this_matters`. -/
def sentEarnings : String :=
  "Finansal sonuçlar, şirketin operasyonel gücünü ve mevcut fiyatlamaların sürdürülebilirliğini gösterir."

/-- The global-macro sentence of `why_this_matters`. -/
def sentGlobal : String :=
  "Küresel makro gelişmeler, gelişen piyasalara yönelik risk iştahını ve sermaye akımlarını belirler."

/-- The commodity sentence of `why_this_matters`. -/
def sentCommodity : String :=
  "Emtia fiyatları, enflasyon beklentileri ve ilgili sektörler üzerinde belirleyici rol oynar."

/-- The fallback sentence of `why_this_matters`. -/
def sentGeneric : String :=
  "Bu gelişme, yatırımcı algısı ve piyasa beklentileri açısından önem taşıyor."

/-- `why_this_matters(news)` of app.py: a cascade of keyword-group checks
against the lowered title only, first match wins, generic fallback. -/
def why_this_matters (news : Article) : String :=
  let title := lowerStr news.title
  if (["faiz", "tcmb", "merkez bankası"].any fun k => occursIn k.toList title) then
    sentMonetary
  else if (["bilanço", "kar", "zarar"].any fun k => occursIn k.toList title) then
    sentEarnings
  else if (["fed", "abd", "enflasyon"].any fun k => occursIn k.toList title) then
    sentGlobal
  else if (["petrol", "emtia", "altın"].any fun k => occursIn k.toList title) then
    sentCommodity
  else
    sentGeneric

/-- The lowered `title + " " + summary` text that `sector_impact` and
`sector_heat` both match against. -/
def sectorText (news : Article) : List Char :=
  lowerStr (news.title ++ " " ++ news.summary)

/-- The Banking keyword group of `sector_impact` matches the record. -/
def bankingHit (news : Article) : Bool :=
  ["faiz", "tcmb", "banka", "kredi", "mevduat"].any fun k =>
    occursIn k.toList (sectorText news)

/-- The Industrial keyword group of `sector_impact` matches the record. -/
def industrialHit (news : Article) : Bool :=
  ["sanayi", "üretim", "ihracat", "fabrika"].any fun k =>
    occursIn k.toList (sectorText news)

/-- The Energy keyword group of `sector_impact` matches the record. -/
def energyHit (news : Article) : Bool :=
  ["enerji", "petrol", "doğalgaz", "elektrik"].any fun k =>
    occursIn k.toList (sectorText news)

/-- `sector_impact(news)` of app.py: the sector labels whose keyword
group occurs in the lowered title+summary, in the order Banking,
Industrial, Energy; `sectors or ["Broad Market"]` when none matched. -/
def sector_impact (news : Article) : List String :=
  let sectors :=
    (if bankingHit news then ["Banking"] else [])
      ++ (if industrialHit news then ["Industrial"] else [])
      ++ (if energyHit news then ["Energy"] else [])
  if sectors.isEmpty then ["Broad Market"] else sectors

/-- C1 (amended): at the spec's scenario record — title "TCMB faiz
kararı", empty summary, source "Bigpara", published at the call instant —
the score is 9 (two high-keyword hits, "TCMB" and "faiz", of +3 each,
recency bonus 3, no trusted-source bonus), `why_this_matters` returns the
monetary-policy sentence and `sector_impact` returns exactly Banking. -/
theorem tcmb_scenario_spec :
    score_news 0 articleTCMB = 9
      ∧ why_this_matters articleTCMB = sentMonetary
      ∧ sector_impact articleTCMB = ["Banking"] := by
  refine ⟨?_, by decide, by decide⟩
  have hk : keywordPoints (lowerStr (articleTCMB.title ++ " " ++ articleTCMB.summary)) = 6 := by
    decide
  have hs : sourceBonus articleTCMB.source = 0 := by decide
  rw [score_news, hk, hs]
  rw [show articleTCMB.published = 0 from rfl, recencyBonus_now_eq_three]
  norm_num

/-- C2 (code evaluation): the recency contribution is computed from the
timedelta's `.seconds` component, so it wraps every 24 hours: a record
25 hours old (elapsed 90000 s) still receives bonus 2, while a record
4 hours old (elapsed 14400 s) receives bonus 0 — the contribution is
neither `max(0, 3 - hoursOld)` in wall-clock hours nor non-increasing
in the elapsed time. -/
theorem recency_wraps_after_a_day :
    recencyBonus 90000 0 = 2 ∧ recencyBonus 14400 0 = 0 := by
  constructor
  · have h : ((90000 : Int) - 0).emod 86400 = 3600 := by decide
    rw [recencyBonus, hours_old, h]
    norm_num
  · have h : ((14400 : Int) - 0).emod 86400 = 14400 := by decide
    rw [recencyBonus, hours_old, h]
    rw [max_eq_left (by norm_num)]

/-- C4: `sector_impact` never returns the empty list, returns exactly the
singleton ["Broad Market"] precisely when none of the three keyword
groups matches, and a record can carry several sector labels at once
(witnessed by a title hitting both Banking and Energy). -/
theorem sector_impact_spec :
    (∀ a : Article,
      sector_impact a ≠ []
        ∧ (sector_impact a = ["Broad Market"]
            ↔ bankingHit a = false ∧ industrialHit a = false ∧ energyHit a = false))
      ∧ 2 ≤ (sector_impact
          { title := "faiz enerji", summary := "", source := "X",
            published := 0, score := none }).length := by
  constructor
  · intro a
    cases hb : bankingHit a <;> cases hi : industrialHit a <;> cases he : energyHit a <;>
      simp [sector_impact, hb, hi, he]
  · decide

/-- C4 (evaluation): a record matching no sector keyword group is
classified as Broad Market; obtained from the classifier theorem. -/
theorem sector_impact_default_witness :
    sector_impact
        { title := "hello", summary := "", source := "X",
          published := 0, score := none }
      = ["Broad Market"] :=
  (sector_impact_spec.1 _).2.mpr ⟨by decide, by decide, by decide⟩

/-- The positive-sentiment keywords of `sector_heat`. -/
def posWords : List String := ["artış", "yükseliş", "güçlü", "rekor", "olumlu"]

/-- The negative-sentiment keywords of `sector_heat`. -/
def negWords : List String := ["düşüş", "gerileme", "zayıf", "baskı", "risk"]

/-- Some positive keyword occurs in the record's lowered title+summary. -/
def posHit (n : Article) : Bool :=
  posWords.any fun p => occursIn p.toList (sectorText n)

/-- Some negative keyword occurs in the record's lowered title+summary. -/
def negHit (n : Article) : Bool :=
  negWords.any fun m => occursIn m.toList (sectorText n)

/-- The per-record sentiment of `sector_heat`:
`(1 if any(p in text ...) else 0) - (1 if any(m in text ...) else 0)`. -/
def sentimentDelta (n : Article) : Int :=
  (if posHit n then 1 else 0) - (if negHit n then 1 else 0)

/-- The accumulator dict `heat = {"Banking": 0, "Industrial": 0, "Energy": 0}`. -/
structure Heat where
  banking : Int
  industrial : Int
  energy : Int
deriving DecidableEq, Repr

/-- `if s in heat: heat[s] += sentiment` for one sector label `s`. -/
def addSector (d : Int) (h : Heat) (s : String) : Heat :=
  if s = "Banking" then { h with banking := h.banking + d }
  else if s = "Industrial" then { h with industrial := h.industrial + d }
  else if s = "Energy" then { h with energy := h.energy + d }
  else h

/-- One iteration of the `for n in top_news` loop of `sector_heat`. -/
def heatStep (h : Heat) (n : Article) : Heat :=
  (sector_impact n).foldl (addSector (sentimentDelta n)) h

/-- The accumulated heat dict after the loop of `sector_heat`. -/
def heatAccum (top_news : List Article) : Heat :=
  top_news.foldl heatStep { banking := 0, industrial := 0, energy := 0 }

/-- The label projection of `sector_heat`:
`"🔥 Positive" if v > 0 else "❄️ Negative" if v < 0 else "➖ Neutral"`. -/
def heatLabel (v : Int) : String :=
  if v > 0 then "🔥 Positive" else if v < 0 then "❄️ Negative" else "➖ Neutral"

/-- The labels dict `sector_heat` returns. -/
structure HeatLabels where
  banking : String
  industrial : String
  energy : String
deriving DecidableEq, Repr

/-- `sector_heat(top_news)` of app.py: accumulate each record's sentiment
into its matched sectors, then project each accumulator to a label. -/
def sector_heat (top_news : List Article) : HeatLabels :=
  let h := heatAccum top_news
  { banking := heatLabel h.banking, industrial := heatLabel h.industrial,
    energy := heatLabel h.energy }

/-- The contribution one record makes to the accumulator of sector `s`. -/
def sectorContrib (s : String) (n : Article) : Int :=
  if s ∈ sector_impact n then sentimentDelta n else 0

theorem heatStep_components (h : Heat) (n : Article) :
    (heatStep h n).banking = h.banking + sectorContrib "Banking" n
      ∧ (heatStep h n).industrial = h.industrial + sectorContrib "Industrial" n
      ∧ (heatStep h n).energy = h.energy + sectorContrib "Energy" n := by
  cases hb : bankingHit n <;> cases hi : industrialHit n <;> cases he : energyHit n <;>
    simp [heatStep, sector_impact, hb, hi, he, addSector, sectorContrib]

theorem heatAccum_components (l : List Article) : ∀ h : Heat,
    (l.foldl heatStep h).banking = h.banking + (l.map (sectorContrib "Banking")).sum
      ∧ (l.foldl heatStep h).industrial
          = h.industrial + (l.map (sectorContrib "Industrial")).sum
      ∧ (l.foldl heatStep h).energy = h.energy + (l.map (sectorContrib "Energy")).sum := by
  induction l with
  | nil => intro h; simp
  | cons n rest ih =>
    intro h
    obtain ⟨ih1, ih2, ih3⟩ := ih (heatStep h n)
    obtain ⟨s1, s2, s3⟩ := heatStep_components h n
    refine ⟨?_, ?_, ?_⟩ <;>
      simp [List.foldl_cons, ih1, ih2, ih3, s1, s2, s3, add_assoc]

theorem heatLabel_pos_iff (v : Int) : heatLabel v = "🔥 Positive" ↔ 0 < v := by
  by_cases h1 : v > 0
  · simp [heatLabel, h1]
  · by_cases h2 : v < 0 <;> simp [heatLabel, h1, h2]

theorem heatLabel_neg_iff (v : Int) : heatLabel v = "❄️ Negative" ↔ v < 0 := by
  by_cases h1 : v > 0
  · simp [heatLabel, h1]
    omega
  · by_cases h2 : v < 0 <;> simp [heatLabel, h1, h2]

theorem heatLabel_neutral_iff (v : Int) : heatLabel v = "➖ Neutral" ↔ v = 0 := by
  by_cases h1 : v > 0
  · simp [heatLabel, h1]
    omega
  · by_cases h2 : v < 0
    · simp [heatLabel, h1, h2]
      omega
    · simp [heatLabel, h1, h2]
      omega

/-- C5: over any selected list, each sector accumulator of `sector_heat`
is the sum of the records' sentiment deltas restricted to the records
matching that sector; the delta is the positive flag minus the negative
flag (so both present cancel to 0) and always lies in {-1, 0, 1};
Broad Market is never accumulated; and the projected label is the
Positive one iff the sum is > 0, the Negative one iff < 0, the Neutral
one iff = 0. -/
theorem sector_heat_spec (top_news : List Article) :
    (heatAccum top_news).banking = (top_news.map (sectorContrib "Banking")).sum
      ∧ (heatAccum top_news).industrial
          = (top_news.map (sectorContrib "Industrial")).sum
      ∧ (heatAccum top_news).energy = (top_news.map (sectorContrib "Energy")).sum
      ∧ (∀ a : Article,
          sentimentDelta a = (if posHit a then 1 else 0) - (if negHit a then 1 else 0))
      ∧ (∀ a : Article,
          sentimentDelta a = -1 ∨ sentimentDelta a = 0 ∨ sentimentDelta a = 1)
      ∧ (∀ a : Article, posHit a = true → negHit a = true → sentimentDelta a = 0)
      ∧ (∀ d : Int, ∀ h : Heat, addSector d h "Broad Market" = h)
      ∧ sector_heat top_news
          = { banking := heatLabel (heatAccum top_news).banking,
              industrial := heatLabel (heatAccum top_news).industrial,
              energy := heatLabel (heatAccum top_news).energy }
      ∧ (∀ v : Int, heatLabel v = "🔥 Positive" ↔ 0 < v)
      ∧ (∀ v : Int, heatLabel v = "❄️ Negative" ↔ v < 0)
      ∧ (∀ v : Int, heatLabel v = "➖ Neutral" ↔ v = 0) := by
  obtain ⟨h1, h2, h3⟩ :=
    heatAccum_components top_news { banking := 0, industrial := 0, energy := 0 }
  refine ⟨?_, ?_, ?_, fun a => rfl, ?_, ?_, ?_, rfl,
    heatLabel_pos_iff, heatLabel_neg_iff, heatLabel_neutral_iff⟩
  · simpa [heatAccum] using h1
  · simpa [heatAccum] using h2
  · simpa [heatAccum] using h3
  · intro a
    unfold sentimentDelta
    cases posHit a <;> cases negHit a <;> simp
  · intro a hp hn
    simp [sentimentDelta, hp, hn]
  · intro d h
    simp [addSector]

/-- C5 (evaluation): a record containing both a positive and a negative
keyword contributes sentiment 0; obtained from the aggregator theorem. -/
theorem sector_heat_cancel_witness :
    sentimentDelta
        { title := "artış düşüş", summary := "", source := "X",
          published := 0, score := none }
      = 0 := by
  have h := sector_heat_spec []
  exact h.2.2.2.2.2.1 _ (by decide) (by decide)

/-- A generic first-match-wins rule list: return the sentence of the
first keyword group that occurs in the lowered title, else the fallback. -/
def firstRuleMatch (fallback : String) : List (List String × String) → List Char → String
  | [], _ => fallback
  | (kws, s) :: rest, title =>
    if kws.any (fun k => occursIn k.toList title) then s
    else firstRuleMatch fallback rest title

/-- The rule list of `why_this_matters`, in the source's order:
monetary policy, earnings, global macro, commodity. -/
def whyRules : List (List String × String) :=
  [(["faiz", "tcmb", "merkez bankası"], sentMonetary),
   (["bilanço", "kar", "zarar"], sentEarnings),
   (["fed", "abd", "enflasyon"], sentGlobal),
   (["petrol", "emtia", "altın"], sentCommodity)]

/-- C7: `why_this_matters` is exactly the first-match-wins evaluation of
the fixed ordered rule list (monetary policy, earnings, global macro,
commodity) with the generic fallback, and it reads only the record's
title: records with equal titles get equal sentences whatever their
summaries. -/
theorem why_this_matters_spec :
    (∀ a : Article,
      why_this_matters a = firstRuleMatch sentGeneric whyRules (lowerStr a.title))
      ∧ ∀ a b : Article, a.title = b.title → why_this_matters a = why_this_matters b := by
  constructor
  · intro a
    rfl
  · intro a b h
    simp [why_this_matters, h]

/-- C7 (evaluation): two records sharing the title "Fed kararı" but with
different summaries, sources and dates get the same sentence; obtained
from the narrative theorem. -/
theorem why_this_matters_title_only_witness :
    why_this_matters
        { title := "Fed kararı", summary := "x", source := "X",
          published := 0, score := none }
      = why_this_matters
        { title := "Fed kararı", summary := "y", source := "ReutersTR",
          published := 7, score := some 2 } :=
  why_this_matters_spec.2 _ _ rfl

/-- C9: with the clock injected, `score_news` is a pure function of the
record's title, summary, source and publish time: two records equal on
those four fields (whatever their attached scores) get equal scores. In
this embedding the absence of side effects is structural: `score_news`
returns only the score and the record is left untouched. -/
theorem score_news_deterministic (now : Int) (a b : Article)
    (h1 : a.title = b.title) (h2 : a.summary = b.summary)
    (h3 : a.source = b.source) (h4 : a.published = b.published) :
    score_news now a = score_news now b := by
  rw [score_news, score_news, h1, h2, h3, h4]

/-- C9 (evaluation): two records equal on the four scored fields but with
different attached scores get the same score at the same instant. -/
theorem score_news_deterministic_witness :
    score_news 0
        { title := "t", summary := "s", source := "X", published := 5, score := none }
      = score_news 0
        { title := "t", summary := "s", source := "X", published := 5, score := some 99 } :=
  score_news_deterministic 0 _ _ rfl rfl rfl rfl

/-- The dict `get_market_data` returns: closing value, percent change and
the currency rate, as exact rationals. -/
structure Market where
  bist_close : ℚ
  bist_change : ℚ
  usdtry : ℚ
deriving DecidableEq, Repr

/-- The rendering of a number into the summary string (Python's float
formatting, abstracted to the canonical rational rendering). -/
def ratStr (q : ℚ) : String := toString q

/-- The fixed template of `generate_market_summary`, with the directional
phrase as a parameter. -/
def marketTemplate (direction : String) (market : Market) : String :=
  "BIST 100 günü %" ++ ratStr |market.bist_change| ++ " " ++ direction ++ " "
    ++ ratStr market.bist_close ++ " seviyesinde tamamladı. USD/TRY "
    ++ ratStr market.usdtry ++ " seviyesinde izleniyor."

/-- `generate_market_summary(market)` of app.py:
`direction = "yükselişle" if market["bist_change"] > 0 else "düşüşle"`,
interpolated with the absolute change, the close and the rate. -/
def generate_market_summary (market : Market) : String :=
  let direction := if market.bist_change > 0 then "yükselişle" else "düşüşle"
  "BIST 100 günü %" ++ ratStr |market.bist_change| ++ " " ++ direction ++ " "
    ++ ratStr market.bist_close ++ " seviyesinde tamamladı. USD/TRY "
    ++ ratStr market.usdtry ++ " seviyesinde izleniyor."

/-- C6: the market summary is the fixed template around a directional
phrase chosen by the sign of the change: the rising phrase exactly when
the change is strictly positive, and the falling phrase when it is zero
or negative (zero falls into the negative branch). -/
theorem market_summary_direction (market : Market) :
    generate_market_summary market
        = marketTemplate
            (if market.bist_change > 0 then "yükselişle" else "düşüşle") market
      ∧ (0 < market.bist_change →
          generate_market_summary market = marketTemplate "yükselişle" market)
      ∧ (market.bist_change ≤ 0 →
          generate_market_summary market = marketTemplate "düşüşle" market) := by
  refine ⟨rfl, ?_, ?_⟩
  · intro h
    simp [generate_market_summary, marketTemplate, h]
  · intro h
    simp [generate_market_summary, marketTemplate, not_lt.mpr h]

/-- A raw feed entry as the fetch loop sees it: `published_parsed` is
`none` when the feed provides no publish timestamp. -/
structure RawEntry where
  title : String
  summary : String
  published_parsed : Option Int
deriving DecidableEq, Repr

/-- The publish time the loop assigns: the parsed timestamp if present,
else `datetime.now()`. -/
def entryTime (now : Int) (e : RawEntry) : Int := e.published_parsed.getD now

/-- `cutoff = datetime.now() - timedelta(hours=18)`. -/
def cutoff (now : Int) : Int := now - 18 * 3600

/-- The retention test of the fetch loop: `published >= cutoff`. -/
def keepEntry (now : Int) (e : RawEntry) : Bool :=
  cutoff now ≤ entryTime now e

/-- The article dict the loop appends for a kept entry of one source. -/
def mkArticle (now : Int) (source : String) (e : RawEntry) : Article :=
  { title := e.title, summary := e.summary, source := source,
    published := entryTime now e, score := none }

/-- The fetch loop of `fetch_news` for one source: keep the entries that
pass the cutoff and build their article dicts. -/
def fetchSource (now : Int) (source : String) (entries : List RawEntry) : List Article :=
  (entries.filter (keepEntry now)).map (mkArticle now source)

/-- `fetch_news()` of app.py over the parsed feeds, source by source in
feed order, with the wall clock passed in explicitly. -/
def fetch_news (now : Int) (feeds : List (String × List RawEntry)) : List Article :=
  feeds.foldr (fun p acc => fetchSource now p.1 p.2 ++ acc) []

/-- C8 (counterexample): an entry published 3600 seconds *after* the call
instant is kept — its publish time lies outside any 18-hour window
ending at the moment of the call, so retention is not "exactly the
trailing window". -/
theorem fetch_keeps_future_entry :
    keepEntry 0 { title := "t", summary := "", published_parsed := some 3600 } = true
      ∧ 0 < entryTime 0 { title := "t", summary := "", published_parsed := some 3600 } := by
  exact ⟨by decide, by decide⟩

/-- C8 (amended): the fetch loop keeps exactly the entries whose
(defaulted) publish time is at least `now - 18 * 3600` — there is no
upper bound, so future-dated entries are kept too; an entry without a
publish timestamp is assigned `now` as its publish time and is therefore
always kept; and the articles built for a source are exactly the kept
entries' dicts. -/
theorem fetch_news_window (now : Int) (source : String)
    (entries : List RawEntry) (e : RawEntry) (a : Article) :
    (keepEntry now e = true ↔ now - 64800 ≤ entryTime now e)
      ∧ (e.published_parsed = none → entryTime now e = now ∧ keepEntry now e = true)
      ∧ (a ∈ fetchSource now source entries
          ↔ ∃ x ∈ entries, keepEntry now x = true ∧ a = mkArticle now source x) := by
  refine ⟨?_, ?_, ?_⟩
  · rw [keepEntry, cutoff]
    norm_num
  · intro h
    refine ⟨by simp [entryTime, h], ?_⟩
    rw [keepEntry, cutoff, entryTime, h]
    simp
  · rw [fetchSource]
    simp only [List.mem_map, List.mem_filter]
    constructor
    · rintro ⟨x, ⟨hx, hk⟩, hval⟩
      exact ⟨x, hx, hk, hval.symm⟩
    · rintro ⟨x, hx, hk, hval⟩
      exact ⟨x, ⟨hx, hk⟩, hval.symm⟩

/-- The `x["score"]` read by the sorting key; every record has the key
attached by the time the sort runs. -/
def scoreVal (a : Article) : ℚ := a.score.getD 0

/-- The descending comparison `list.sort(key=lambda x: x["score"],
reverse=True)` sorts by: `a` may come before `b` when `b`'s score does
not exceed `a`'s. -/
def scoreLe (a b : Article) : Bool := scoreVal b ≤ scoreVal a

/-- `a["score"] = score_news(a)`: the record with its score attached. -/
def attachScore (now : Int) (a : Article) : Article :=
  { a with score := some (score_news now a) }

/-- The caller's list as `select_top_news` leaves it: every record scored,
then stably sorted descending by score (Python's `list.sort` is stable;
`reverse=True` keeps equal-key records in their original order). -/
def select_top_full (now : Int) (articles : List Article) : List Article :=
  (articles.map (attachScore now)).mergeSort scoreLe

/-- `select_top_news(articles, n=3)` of app.py: the first `n` records of
the scored, sorted list. -/
def select_top_news (now : Int) (articles : List Article) (n : Nat := 3) : List Article :=
  (select_top_full now articles).take n

theorem scoreLe_trans (a b c : Article) :
    scoreLe a b = true → scoreLe b c = true → scoreLe a c = true := by
  simp only [scoreLe, decide_eq_true_eq]
  exact fun h1 h2 => le_trans h2 h1

theorem scoreLe_total (a b : Article) : (scoreLe a b || scoreLe b a) = true := by
  simp only [scoreLe, Bool.or_eq_true, decide_eq_true_eq]
  exact le_total _ _

theorem score_news_attachScore (now m : Int) (a : Article) :
    score_news m (attachScore now a) = score_news m a := rfl

theorem select_top_full_sorted (now : Int) (articles : List Article) :
    (select_top_full now articles).Pairwise (fun a b => scoreVal b ≤ scoreVal a) := by
  have h := List.sorted_mergeSort scoreLe_trans scoreLe_total (articles.map (attachScore now))
  exact h.imp (by simp only [scoreLe, decide_eq_true_eq]; exact fun h => h)

/-- C3: `select_top_news` returns at most `n` records, ordered by score
descending; the underlying sort is stable — two equally scored records
keep their original relative order — and when the list has no more than
`n` records the whole (scored, sorted) list is returned. -/
theorem select_top_news_spec (now : Int) (articles : List Article) (n : Nat) :
    (select_top_news now articles n).length ≤ n
      ∧ (select_top_news now articles n).Pairwise (fun a b => scoreVal b ≤ scoreVal a)
      ∧ (∀ a b : Article, scoreVal a = scoreVal b →
          [a, b].Sublist (articles.map (attachScore now)) →
          [a, b].Sublist (select_top_full now articles))
      ∧ (articles.length ≤ n →
          select_top_news now articles n = select_top_full now articles) := by
  refine ⟨?_, ?_, ?_, ?_⟩
  · simp [select_top_news, List.length_take]
  · exact (select_top_full_sorted now articles).sublist (List.take_sublist _ _)
  · intro a b heq hsub
    refine List.pair_sublist_mergeSort scoreLe_trans scoreLe_total ?_ hsub
    simp [scoreLe, heq]
  · intro h
    apply List.take_of_length_le
    simpa [select_top_full] using h

/-- C10: in the explicit-state rendering of the in-place
`articles.sort`, after the call the caller's list is `select_top_full`:
every one of its records carries the attached score of that very record,
it is a permutation of the score-attached input (so every input record
is still there, scored), it is ordered descending by score, and the
returned list is exactly its first `n` records. -/
theorem select_top_news_effects (now : Int) (articles : List Article) (n : Nat) :
    (∀ a ∈ select_top_full now articles, a.score = some (score_news now a))
      ∧ (select_top_full now articles).Perm (articles.map (attachScore now))
      ∧ (select_top_full now articles).Pairwise (fun a b => scoreVal b ≤ scoreVal a)
      ∧ select_top_news now articles n = (select_top_full now articles).take n := by
  refine ⟨?_, List.mergeSort_perm _ _, select_top_full_sorted now articles, rfl⟩
  intro a ha
  rw [select_top_full, List.mem_mergeSort, List.mem_map] at ha
  obtain ⟨x, _, rfl⟩ := ha
  rw [score_news_attachScore]
  rfl

/-- C3 (evaluation): at a two-record list whose records tie on score,
the scored pair stays in input order inside the sorted list, and with
`n = 3` the whole list is returned; obtained from the selector theorem. -/
theorem select_top_news_spec_witness :
    [attachScore 0 { title := "t", summary := "", source := "X", published := 0, score := none },
      attachScore 0 { title := "t", summary := "", source := "X", published := 0, score := none }].Sublist
        (select_top_full 0
          [{ title := "t", summary := "", source := "X", published := 0, score := none },
            { title := "t", summary := "", source := "X", published := 0, score := none }])
      ∧ select_top_news 0
          [{ title := "t", summary := "", source := "X", published := 0, score := none },
            { title := "t", summary := "", source := "X", published := 0, score := none }] 3
        = select_top_full 0
            [{ title := "t", summary := "", source := "X", published := 0, score := none },
              { title := "t", summary := "", source := "X", published := 0, score := none }] := by
  have h := select_top_news_spec 0
    [{ title := "t", summary := "", source := "X", published := 0, score := none },
      { title := "t", summary := "", source := "X", published := 0, score := none }] 3
  exact ⟨h.2.2.1 _ _ rfl (by simp), h.2.2.2 (by simp)⟩

/-- C6 (evaluation): a zero change is rendered with the falling phrase;
obtained from the summary theorem. -/
theorem market_summary_direction_witness :
    generate_market_summary { bist_close := 100, bist_change := 0, usdtry := 41 }
      = marketTemplate "düşüşle" { bist_close := 100, bist_change := 0, usdtry := 41 } :=
  (market_summary_direction _).2.2 (by norm_num)

/-- C8 (evaluation): an entry without a publish timestamp gets the call
instant as publish time and passes the cutoff; obtained from the window
theorem. -/
theorem fetch_news_window_witness :
    entryTime 0 { title := "t", summary := "", published_parsed := none } = 0
      ∧ keepEntry 0 { title := "t", summary := "", published_parsed := none } = true :=
  (fetch_news_window 0 "Bigpara" []
      { title := "t", summary := "", published_parsed := none }
      (mkArticle 0 "Bigpara"
        { title := "t", summary := "", published_parsed := none })).2.1 rfl

/-- C10 (evaluation): after selecting from a one-record list, the record
left in the list carries its attached score; obtained from the effects
theorem. -/
theorem select_top_news_effects_witness :
    (attachScore 0 { title := "t", summary := "", source := "X", published := 0, score := none }).score
      = some (score_news 0
          (attachScore 0
            { title := "t", summary := "", source := "X", published := 0, score := none })) := by
  have h := select_top_news_effects 0
    [{ title := "t", summary := "", source := "X", published := 0, score := none }] 3
  exact h.1 _ (by simp [select_top_full, List.mergeSort_singleton])
